import Mathlib

/-!
Shallow embedding of the VanishChat room-lifecycle core
(server.js, controllers/roomController.js, models/Room.js, models/Message.js,
services/cleanupService.js, schema.sql) and proofs about its claims.

Times are modelled as integers (milliseconds since the epoch, UTC instants).
Stored `expires_at` / `sent_at` values are naive UTC timestamps: `createRoom`
produces them with `toISOString().slice(0,19)` (UTC wall-clock, second
granularity) and the driver passes them through unchanged.
-/

namespace VanishChat

/-- Row of the `rooms` table (schema.sql lines 12-20). `is_active` defaults
to 1 on insert and nothing in the code ever clears it. -/
structure Room where
  id : Nat
  room_code : String
  type : String
  created_at : Int
  expires_at : Int
  is_active : Bool
deriving DecidableEq, Repr

/-- Row of the `messages` table (schema.sql lines 32-45). -/
structure Message where
  id : Nat
  room_id : Nat
  nickname : String
  content : String
  iv : String
  sent_at : Int
deriving DecidableEq, Repr

/-- The persistent store: both tables plus the AUTO_INCREMENT counters. -/
structure Store where
  rooms : List Room
  messages : List Message
  nextRoomId : Nat
  nextMsgId : Nat
deriving DecidableEq, Repr

/-- Room.findByCode (models/Room.js lines 33-42):
SELECT ... WHERE room_code = ? AND is_active = 1 LIMIT 1. -/
def Room.findByCode (s : Store) (code : String) : Option Room :=
  s.rooms.find? (fun r => r.room_code == code && r.is_active)

/-- Room.findExpired (models/Room.js lines 47-54):
SELECT id, room_code FROM rooms WHERE expires_at <= NOW() AND is_active = 1.
`dbNow` is the value of the MySQL `NOW()` function, which is evaluated in the
database session time zone (db.js sets only the driver-side `timezone: Z`
conversion option, not the session `time_zone` variable). -/
def Room.findExpired (s : Store) (dbNow : Int) : List Room :=
  s.rooms.filter (fun r => decide (r.expires_at ≤ dbNow) && r.is_active)

/-- Room.deleteById (models/Room.js lines 60-62): DELETE FROM rooms WHERE id = ?.
The ON DELETE CASCADE constraint fk_messages_room (schema.sql lines 41-44)
removes all messages of that room in the same transaction. -/
def Room.deleteById (s : Store) (roomId : Nat) : Store :=
  { s with rooms := s.rooms.filter (fun r => r.id ≠ roomId),
           messages := s.messages.filter (fun m => m.room_id ≠ roomId) }

/-- Room.create (models/Room.js lines 19-27): INSERT INTO rooms. -/
def Room.create (s : Store) (roomCode ty : String) (createdAt expiresAt : Int) :
    Store × Room :=
  let r : Room := { id := s.nextRoomId, room_code := roomCode, type := ty,
                    created_at := createdAt, expires_at := expiresAt,
                    is_active := true }
  ({ s with rooms := s.rooms ++ [r], nextRoomId := s.nextRoomId + 1 }, r)

/-- Message.create (models/Message.js lines 20-27): INSERT INTO messages;
`sent_at` takes the DEFAULT CURRENT_TIMESTAMP of the database clock. -/
def Message.create (s : Store) (roomId : Nat) (nickname content iv : String)
    (dbNow : Int) : Store × Nat :=
  let m : Message := { id := s.nextMsgId, room_id := roomId, nickname := nickname,
                       content := content, iv := iv, sent_at := dbNow }
  ({ s with messages := s.messages ++ [m], nextMsgId := s.nextMsgId + 1 }, s.nextMsgId)

/-- Messages of one room, in table (insertion = send) order. -/
def roomMessages (s : Store) (roomId : Nat) : List Message :=
  s.messages.filter (fun m => m.room_id == roomId)

/-- Message.findByRoomId (models/Message.js lines 33-42):
SELECT ... WHERE room_id = ? ORDER BY sent_at ASC. SQL fixes only that the
result is some reordering of the room's rows that is non-decreasing in
`sent_at`; the relative order of rows with equal `sent_at` is unspecified.
This predicate holds of exactly the result lists the query may return. -/
def isHistoryResult (s : Store) (roomId : Nat) (l : List Message) : Prop :=
  l.Perm (roomMessages s roomId) ∧ l.Pairwise (fun a b => a.sent_at ≤ b.sent_at)

instance (s : Store) (roomId : Nat) (l : List Message) :
    Decidable (isHistoryResult s roomId l) := by
  unfold isHistoryResult; infer_instance

/-- One particular result the query may return (used where the embedding of a
handler needs a concrete value): the room's rows stably sorted by `sent_at`. -/
def Message.findByRoomId (s : Store) (roomId : Nat) : List Message :=
  (roomMessages s roomId).insertionSort (fun a b => a.sent_at ≤ b.sent_at)

-- ────────────────────────────────────────────────────────────
-- C1: the three liveness checks
-- ────────────────────────────────────────────────────────────

/-- HTTP join pre-check expiry test (roomController joinRoom, server.js line
441): new Date() >= new Date(room.expires_at + "Z") — the stored naive UTC
timestamp is explicitly tagged as UTC, so the room is declared expired iff
the UTC instant `now` has reached `expires_at`. -/
def httpExpiredCheck (expires_at now : Int) : Prop := now ≥ expires_at

/-- Realtime chat:join expiry test (server.js line 143): the identical
expression new Date() >= new Date(room.expires_at + "Z"). -/
def realtimeExpiredCheck (expires_at now : Int) : Prop := now ≥ expires_at

/-- Sweeper selection test (Room.findExpired, models/Room.js line 51):
expires_at <= NOW(). The left side is the stored naive UTC timestamp; the
right side is the database session wall clock. -/
def sweeperExpiredCheck (expires_at dbNow : Int) : Prop := expires_at ≤ dbNow

/-- Modelled from the spec: the reference liveness predicate of section 4.2,
expired iff now >= expiresAt on the UTC time base. -/
def isExpiredSpec (expires_at now : Int) : Prop := now ≥ expires_at

/-- The database session clock as seen by NOW(): the UTC instant shifted by
the session time-zone offset. db.js (config/db.js line 24) sets only the
mysql2 driver option `timezone: Z`, which governs driver-side Date
conversion; it never issues SET time_zone, so the session offset is whatever
the database server is configured with. -/
def dbSessionNow (now dbOffset : Int) : Int := now + dbOffset

/-- C1 counterexample: with a database session clock one hour ahead of UTC
(offset 3600000 ms) and a room expiring 30 minutes from now, the sweeper
already selects the room as expired while the reference predicate (and the
HTTP and realtime checks) still call it alive — the three call sites do not
compute one verdict on one consistent UTC time base. -/
theorem c1_sweeper_diverges :
    ¬ (sweeperExpiredCheck 1800000 (dbSessionNow 0 3600000) ↔ isExpiredSpec 1800000 0) := by
  unfold sweeperExpiredCheck dbSessionNow isExpiredSpec
  decide

/-- C1 (amended): the HTTP pre-check and the realtime chat:join check are the
same comparison and always agree with the reference predicate (expired iff
now >= expiresAt, boundary included); the sweeper query agrees with them
exactly when the database session time zone offset is zero, i.e. when NOW()
runs on the same UTC base as the stored timestamps. -/
theorem c1_liveness_agreement (expires_at now dbOffset : Int) :
    (httpExpiredCheck expires_at now ↔ isExpiredSpec expires_at now) ∧
    (realtimeExpiredCheck expires_at now ↔ httpExpiredCheck expires_at now) ∧
    (dbOffset = 0 →
      (sweeperExpiredCheck expires_at (dbSessionNow now dbOffset) ↔
        isExpiredSpec expires_at now)) := by
  unfold httpExpiredCheck realtimeExpiredCheck sweeperExpiredCheck
    dbSessionNow isExpiredSpec
  refine ⟨Iff.rfl, Iff.rfl, fun h => ?_⟩
  subst h
  omega

/-- C1 witness: the amended agreement evaluated at a concrete instant. -/
theorem c1_liveness_agreement_witness :
    (httpExpiredCheck 5 5 ↔ isExpiredSpec 5 5) ∧
    (realtimeExpiredCheck 5 5 ↔ httpExpiredCheck 5 5) ∧
    ((0 : Int) = 0 →
      (sweeperExpiredCheck 5 (dbSessionNow 5 0) ↔ isExpiredSpec 5 5)) :=
  c1_liveness_agreement 5 5 0

-- ────────────────────────────────────────────────────────────
-- String helpers (JS trim / toUpperCase / slice on the ASCII range)
-- ────────────────────────────────────────────────────────────

/-- Characters removed by String.prototype.trim (ASCII portion). -/
def isWhitespaceChar (c : Char) : Bool :=
  c == ' ' || c == '\t' || c == '\n' || c == '\r'

/-- Leading and trailing whitespace removal, as a list transformation. -/
def trimChars (cs : List Char) : List Char :=
  ((cs.dropWhile isWhitespaceChar).reverse.dropWhile isWhitespaceChar).reverse

/-- ASCII uppercase conversion of one character. -/
def upperChar (c : Char) : Char :=
  if 'a' ≤ c && c ≤ 'z' then Char.ofNat (c.toNat - 32) else c

/-- roomCode.trim().toUpperCase().slice(0, 6) — the normalisation applied to a
submitted code in both joinRoom (server.js line 422) and chat:join (line 131). -/
def normalizeCode (s : String) : String :=
  String.mk (((trimChars s.data).map upperChar).take 6)

/-- nickname.trim().slice(0, 32) — chat:join nickname normalisation (line 132). -/
def normalizeNick (s : String) : String :=
  String.mk ((trimChars s.data).take 32)

def isValidCodeChar (c : Char) : Bool :=
  ('A' ≤ c && c ≤ 'Z') || ('0' ≤ c && c ≤ '9')

/-- The regex test /^[A-Z0-9]{6}$/ (server.js lines 134 and 424). -/
def isValidCode (s : String) : Bool :=
  s.data.length == 6 && s.data.all isValidCodeChar

/-- String length as the number of characters (JS .length on these inputs). -/
def strLen (s : String) : Nat := s.data.length

-- ────────────────────────────────────────────────────────────
-- Association-list maps (the JS Map objects)
-- ────────────────────────────────────────────────────────────

/-- Map.get(k) with a default (the JS `map.get(code) || fallback` idiom). -/
def lookupD {α β : Type} [DecidableEq α] : List (α × β) → α → β → β
  | [], _, d => d
  | e :: rest, k, d => if e.1 = k then e.2 else lookupD rest k d

/-- Map.set(k, v): replace the binding if present, else append it. -/
def setKey {α β : Type} [DecidableEq α] : List (α × β) → α → β → List (α × β)
  | [], k, v => [(k, v)]
  | e :: rest, k, v => if e.1 = k then (k, v) :: rest else e :: setKey rest k v

/-- Map.delete(k). -/
def removeKey {α β : Type} [DecidableEq α] (m : List (α × β)) (k : α) :
    List (α × β) :=
  m.filter (fun e => e.1 ≠ k)

/-- Add a session id to the set stored under a room code (Set.add: no effect
when already present). Mirrors roomParticipants.get(code).add(socket.id) after
the `if (!roomParticipants.has(code)) roomParticipants.set(code, new Set())`
initialisation (server.js lines 167-168) and socket.join. -/
def addMember (m : List (String × List Nat)) (k : String) (sid : Nat) :
    List (String × List Nat) :=
  let cur := lookupD m k []
  if sid ∈ cur then m else setKey m k (cur ++ [sid])

-- ────────────────────────────────────────────────────────────
-- Server state and deliveries
-- ────────────────────────────────────────────────────────────

/-- Per-connection state (server.js lines 117-118 and 162-164):
socket.currentRoom, socket.nickname, socket.roomId. -/
structure Session where
  currentRoom : Option String
  nickname : Option String
  roomId : Option Nat
deriving DecidableEq, Repr

def Session.init : Session := ⟨none, none, none⟩

/-- One event delivery to one connected socket. A broadcast
io.to(code).emit(...) is expanded into one delivery per member of the
Socket.IO room `code`; socket.to(code) excludes the sender. -/
structure Delivery where
  sid : Nat
  event : String
  nickname : Option String := none
  content : Option String := none
  iv : Option String := none
  msgId : Option Nat := none
  history : List Message := []
  text : Option String := none
  ts : Option Int := none
deriving DecidableEq, Repr

/-- Whole-server state: the database (store), the in-memory
roomParticipants map (server.js line 108), the Socket.IO room membership
(channels; socket.join / socket.leave / socketsLeave), and the per-socket
session fields. -/
structure ServerState where
  store : Store
  roomParticipants : List (String × List Nat)
  channels : List (String × List Nat)
  sessions : List (Nat × Session)
deriving DecidableEq, Repr

def getSession (st : ServerState) (sid : Nat) : Session :=
  lookupD st.sessions sid Session.init

-- ────────────────────────────────────────────────────────────
-- EVENT: chat:join (server.js lines 125-193)
-- ────────────────────────────────────────────────────────────

/-- The chat:join handler. `xssFn` models the `xss` sanitiser (an external
library the handler applies to the trimmed code and nickname); `now` is the
app-server UTC clock (new Date()). A `none` payload field models a missing or
non-string field; "" is the other falsy string. Returns the new state and the
deliveries emitted. -/
def chatJoin (xssFn : String → String) (st : ServerState) (sid : Nat)
    (roomCode nickname : Option String) (now : Int) :
    ServerState × List Delivery :=
  match roomCode, nickname with
  | some rc, some nick =>
    if rc = "" then (st, [])
    else if nick = "" then (st, [])
    else
      let code := xssFn (normalizeCode rc)
      let cleanNick := xssFn (normalizeNick nick)
      if !(isValidCode code) then (st, [])
      else if strLen cleanNick < 1 then (st, [])
      else
        match Room.findByCode st.store code with
        | none =>
          (st, [{ sid := sid, event := "error:room",
                  text := some "Room not found or expired." }])
        | some room =>
          if now ≥ room.expires_at then
            ({ st with store := Room.deleteById st.store room.id },
             [{ sid := sid, event := "room:expired",
                text := some "Room has expired." }])
          else
            let participants := lookupD st.roomParticipants code []
            if room.type = "single" ∧ participants.length ≥ 2 ∧ sid ∉ participants then
              (st, [{ sid := sid, event := "error:room",
                      text := some "This private room is full (max 2 users)." }])
            else
              let st1 := { st with
                channels := addMember st.channels code sid,
                sessions := setKey st.sessions sid
                  ⟨some code, some cleanNick, some room.id⟩,
                roomParticipants := addMember st.roomParticipants code sid }
              let history := Message.findByRoomId st1.store room.id
              let others := (lookupD st1.channels code []).filter (fun x => x ≠ sid)
              (st1,
               [{ sid := sid, event := "chat:history", history := history }]
               ++ others.map (fun o =>
                    ({ sid := o, event := "chat:system",
                       text := some (cleanNick ++ " joined the room."),
                       ts := some now } : Delivery))
               ++ [{ sid := sid, event := "chat:joined",
                     nickname := some cleanNick, ts := some room.expires_at }])
  | _, _ => (st, [])

-- ────────────────────────────────────────────────────────────
-- EVENT: chat:message (server.js lines 201-240)
-- ────────────────────────────────────────────────────────────

/-- The wire payload of a chat:message event: the handler destructures only
`content` and `iv` ({ content, iv } = {}); any further fields a client
attaches are captured by `extra` and never read. -/
structure MsgPayload where
  content : Option String
  iv : Option String
  extra : List (String × String)
deriving DecidableEq, Repr

/-- The chat:message handler. `dbNow` is the database clock stamping
`sent_at` (DEFAULT CURRENT_TIMESTAMP); `now` is new Date() for the broadcast
timestamp. The room re-check (line 215-219) tests only that findByCode still
returns a row; it performs no expiry comparison. -/
def chatMessage (xssFn : String → String) (st : ServerState) (sid : Nat)
    (p : MsgPayload) (dbNow now : Int) : ServerState × List Delivery :=
  let s := getSession st sid
  match s.currentRoom, s.nickname with
  | some room0, some nick =>
    match p.content, p.iv with
    | some content, some iv =>
      if content = "" then (st, [])
      else if iv = "" then (st, [])
      else if strLen content > 65536 then (st, [])
      else
        let cleanContent := xssFn (String.mk (trimChars content.data))
        let cleanIv := xssFn (String.mk (trimChars iv.data))
        match Room.findByCode st.store room0 with
        | none =>
          (st, [{ sid := sid, event := "room:expired",
                  text := some "Room no longer exists." }])
        | some _room =>
          let res := Message.create st.store (s.roomId.getD 0) nick
            cleanContent cleanIv dbNow
          let members := lookupD st.channels room0 []
          ({ st with store := res.1 },
           members.map (fun m =>
             ({ sid := m, event := "chat:message", msgId := some res.2,
                nickname := some nick, content := some cleanContent,
                iv := some cleanIv, ts := some now } : Delivery)))
    | _, _ => (st, [])
  | _, _ => (st, [])

-- ────────────────────────────────────────────────────────────
-- EVENT: disconnect (server.js lines 246-265)
-- ────────────────────────────────────────────────────────────

/-- The disconnect handler: remove the socket from the participant tracker of
its current room (deleting the map entry when the set becomes empty), notify
the remaining members when a nickname had been set, and drop the socket
(Socket.IO removes a disconnecting socket from its channels itself). -/
def onDisconnect (st : ServerState) (sid : Nat) (now : Int) :
    ServerState × List Delivery :=
  let s := getSession st sid
  match s.currentRoom with
  | some code =>
    let cur := lookupD st.roomParticipants code []
    let remaining := cur.filter (fun x => x ≠ sid)
    let parts1 :=
      if (st.roomParticipants.find? (fun e => e.1 = code)).isSome then
        if remaining = [] then removeKey st.roomParticipants code
        else setKey st.roomParticipants code remaining
      else st.roomParticipants
    let chan1 := st.channels.map (fun e =>
      if e.1 = code then (e.1, e.2.filter (fun x => x ≠ sid)) else e)
    let others := (lookupD chan1 code []).filter (fun x => x ≠ sid)
    let ds := match s.nickname with
      | some nick => others.map (fun o =>
          ({ sid := o, event := "chat:system",
             text := some (nick ++ " left the room."), ts := some now } : Delivery))
      | none => []
    ({ st with roomParticipants := parts1, channels := chan1,
               sessions := removeKey st.sessions sid }, ds)
  | none =>
    ({ st with sessions := removeKey st.sessions sid }, [])

-- ────────────────────────────────────────────────────────────
-- Cleanup sweep (services/cleanupService.js lines 40-69)
-- ────────────────────────────────────────────────────────────

/-- Expiry text broadcast by the sweeper. -/
def sweepExpiredText : String :=
  "This session has expired. All messages have been permanently deleted."

/-- The body of one sweep over the snapshot list of expired rooms. Per room:
(1) io.to(code).emit room:expired to every socket in the channel, (2) every
such socket leaves the channel, (3) Room.deleteById. `failDelete` marks room
ids whose deletion rejects; the rejection propagates to the catch wrapping
the whole loop (line 65-68), so the loop stops there — the remaining rooms
of that sweep are not processed (the interval itself survives). -/
def sweepLoop (failDelete : Nat → Bool) :
    ServerState → List Room → List Delivery → ServerState × List Delivery
  | st, [], acc => (st, acc)
  | st, r :: rest, acc =>
    let mems := lookupD st.channels r.room_code []
    let ds := mems.map (fun m =>
      ({ sid := m, event := "room:expired", text := some sweepExpiredText } : Delivery))
    let st1 := { st with channels := removeKey st.channels r.room_code }
    if failDelete r.id then (st1, acc ++ ds)
    else sweepLoop failDelete
      { st1 with store := Room.deleteById st1.store r.id } rest (acc ++ ds)

/-- One tick of the cleanup interval: snapshot Room.findExpired, then run the
per-room loop. `dbNow` is the database NOW() the query compares against. -/
def sweepTick (failDelete : Nat → Bool) (st : ServerState) (dbNow : Int) :
    ServerState × List Delivery :=
  sweepLoop failDelete st (Room.findExpired st.store dbNow) []

-- ────────────────────────────────────────────────────────────
-- HTTP controllers (controllers/roomController.js)
-- ────────────────────────────────────────────────────────────

/-- HTTP responses of the two controllers, tagged by their status codes:
badRequest = 400, notFound = 404, gone = 410, okJoin = 200 with
roomCode/type/expiresAt, created = 201 with the same payload,
serverError = 500. -/
inductive HttpResp where
  | badRequest (error : String)
  | notFound (error : String)
  | gone (error : String)
  | okJoin (roomCode ty : String) (expiresAt : Int)
  | created (roomCode ty : String) (expiresAt : Int)
  | serverError (error : String)
deriving DecidableEq, Repr

/-- POST /api/rooms/join (roomController joinRoom, server.js lines 413-459).
The input is the sanitised req.body.roomCode (none models a missing or
non-string field, "" the falsy empty string). Returns the response and the
store after any side effect. -/
def joinRoom (store : Store) (roomCode : Option String) (now : Int) :
    HttpResp × Store :=
  match roomCode with
  | none => (.badRequest "roomCode is required.", store)
  | some rc =>
    if rc = "" then (.badRequest "roomCode is required.", store)
    else
      let code := normalizeCode rc
      if !(isValidCode code) then
        (.badRequest "Room code must be 6 uppercase alphanumeric characters.", store)
      else
        match Room.findByCode store code with
        | none =>
          (.notFound "Room not found. It may have expired or never existed.", store)
        | some room =>
          if now ≥ room.expires_at then
            (.gone "This session has expired and all messages have been permanently deleted.",
             Room.deleteById store room.id)
          else
            (.okJoin room.room_code room.type room.expires_at, store)

/-- The code alphabet (roomController line 307): A-Z 0-9, 36 characters. -/
def CHARS : String := "ABCDEFGHIJKLMNOPQRSTUVWXYZ0123456789"

/-- Build one candidate code from the six bytes of one crypto.randomBytes
draw: CHARS[bytes[i] % CHARS.length] for i = 0..5 (the getD default is
unreachable since the index is taken mod 36). -/
def codeFromBytes (bytes : Fin 6 → Nat) : String :=
  String.mk ((List.finRange 6).map (fun i => CHARS.data.getD (bytes i % 36) 'A'))

/-- Generation loop of generateUniqueCode (roomController lines 306-321):
attempt numbers count up while the remaining-attempt fuel counts down from 5.
Returns the outcome together with the number of draws (= store uniqueness
checks) performed. -/
def generateLoop (existsCode : String → Bool) (randBytes : Nat → Fin 6 → Nat)
    (attempt : Nat) : Nat → Except String String × Nat
  | 0 => (Except.error "Failed to generate a unique room code after 5 attempts.", 0)
  | fuel + 1 =>
    let code := codeFromBytes (randBytes attempt)
    if existsCode code then
      let res := generateLoop existsCode randBytes (attempt + 1) fuel
      (res.1, res.2 + 1)
    else (Except.ok code, 1)

/-- generateUniqueCode: up to 5 attempts, each checked for uniqueness via
Room.findByCode, then the exhaustion error is thrown. -/
def generateUniqueCode (existsCode : String → Bool)
    (randBytes : Nat → Fin 6 → Nat) : Except String String × Nat :=
  generateLoop existsCode randBytes 0 5

/-- Truncation performed by toISOString().slice(0, 19): the stored timestamp
keeps whole seconds only. -/
def truncSec (ms : Int) : Int := ms - ms % 1000

/-- Tail of createRoom once expiresAt is computed (roomController lines
394-401): draw a unique code, insert the room, answer 201; a generation
throw is caught by the handler catch-block and surfaces as the 500 error. -/
def finishCreate (randBytes : Nat → Fin 6 → Nat) (store : Store)
    (ty : String) (dbNow expiresAt : Int) : HttpResp × Store :=
  match (generateUniqueCode (fun c => (Room.findByCode store c).isSome) randBytes).1 with
  | Except.error _ => (.serverError "Server error creating room.", store)
  | Except.ok code =>
    let res := Room.create store code ty dbNow expiresAt
    (.created res.2.room_code res.2.type res.2.expires_at, res.1)

/-- POST /api/rooms/create (roomController createRoom, lines 327-406).
`parseDate` models new Date(string) applied to customExpiry: none is an
Invalid Date. The source computes
  expiresAt = new Date(customExpiry).toISOString().slice(0,19)...
BEFORE the isNaN validity check (line 371); on an Invalid Date toISOString
throws a RangeError, which the catch-block turns into the 500 response, so
the "Invalid customExpiry datetime format." branch is unreachable. `now` is
new Date() on the app server; `dbNow` stamps created_at. -/
def createRoom (parseDate : String → Option Int)
    (randBytes : Nat → Fin 6 → Nat) (store : Store)
    (ty expiryType : String) (customExpiry : Option String)
    (now dbNow : Int) : HttpResp × Store :=
  if ty ≠ "single" ∧ ty ≠ "group" then
    (.badRequest "Invalid room type. Must be single or group.", store)
  else if expiryType = "10m" then
    finishCreate randBytes store ty dbNow (truncSec (now + 10 * 60 * 1000))
  else if expiryType = "1h" then
    finishCreate randBytes store ty dbNow (truncSec (now + 60 * 60 * 1000))
  else if expiryType = "24h" then
    finishCreate randBytes store ty dbNow (truncSec (now + 24 * 60 * 60 * 1000))
  else if expiryType = "custom" then
    match customExpiry with
    | none => (.badRequest "customExpiry datetime required when expiryType is custom.", store)
    | some s =>
      if s = "" then
        (.badRequest "customExpiry datetime required when expiryType is custom.", store)
      else
        match parseDate s with
        | none => (.serverError "Server error creating room.", store)
        | some t =>
          if t ≤ now then
            (.badRequest "customExpiry must be in the future.", store)
          else if t > now + 30 * 24 * 60 * 60 * 1000 then
            (.badRequest "customExpiry cannot be more than 30 days in the future.", store)
          else
            finishCreate randBytes store ty dbNow (truncSec t)
  else (.badRequest "Invalid expiryType.", store)

-- ────────────────────────────────────────────────────────────
-- Helper lemmas about the map operations
-- ────────────────────────────────────────────────────────────

theorem lookupD_setKey_self {α β : Type} [DecidableEq α]
    (m : List (α × β)) (k : α) (v : β) (d : β) :
    lookupD (setKey m k v) k d = v := by
  induction m with
  | nil => simp [setKey, lookupD]
  | cons e rest ih =>
    by_cases h : e.1 = k <;> simp [setKey, lookupD, h, ih]

theorem lookupD_setKey_ne {α β : Type} [DecidableEq α]
    (m : List (α × β)) (k k' : α) (v : β) (d : β) (h : k' ≠ k) :
    lookupD (setKey m k v) k' d = lookupD m k' d := by
  induction m with
  | nil =>
    have hne : ¬ k = k' := fun he => h he.symm
    simp [setKey, lookupD, hne]
  | cons e rest ih =>
    by_cases he : e.1 = k
    · subst he
      have hne : ¬ e.1 = k' := fun hx => h hx.symm
      simp [setKey, lookupD, hne]
    · simp [setKey, lookupD, he, ih]

theorem lookupD_removeKey_self {α β : Type} [DecidableEq α]
    (m : List (α × β)) (k : α) (d : β) :
    lookupD (removeKey m k) k d = d := by
  induction m with
  | nil => simp [removeKey, lookupD]
  | cons e rest ih =>
    by_cases h : e.1 = k
    · simpa [removeKey, List.filter_cons, h] using ih
    · simpa [removeKey, List.filter_cons, h, lookupD] using ih

theorem lookupD_removeKey_ne {α β : Type} [DecidableEq α]
    (m : List (α × β)) (k k' : α) (d : β) (h : k' ≠ k) :
    lookupD (removeKey m k) k' d = lookupD m k' d := by
  induction m with
  | nil => simp [removeKey]
  | cons e rest ih =>
    by_cases he : e.1 = k
    · have hne : ¬ k = k' := fun hx => h hx.symm
      simpa [removeKey, List.filter_cons, he, lookupD, hne] using ih
    · by_cases he' : e.1 = k'
      · simp [removeKey, List.filter_cons, he, lookupD, he', h]
      · simpa [removeKey, List.filter_cons, he, lookupD, he'] using ih

theorem lookupD_addMember_self (m : List (String × List Nat)) (k : String)
    (sid : Nat) :
    lookupD (addMember m k sid) k [] =
      (if sid ∈ lookupD m k [] then lookupD m k []
       else lookupD m k [] ++ [sid]) := by
  unfold addMember
  by_cases h : sid ∈ lookupD m k [] <;> simp [h, lookupD_setKey_self]

theorem lookupD_addMember_ne (m : List (String × List Nat)) (k k' : String)
    (sid : Nat) (h : k' ≠ k) :
    lookupD (addMember m k sid) k' [] = lookupD m k' [] := by
  unfold addMember
  by_cases hm : sid ∈ lookupD m k [] <;> simp [hm, lookupD_setKey_ne _ _ _ _ _ h]

theorem Room.findByCode_some (s : Store) (code : String) (room : Room)
    (h : Room.findByCode s code = some room) :
    room ∈ s.rooms ∧ room.room_code = code ∧ room.is_active = true := by
  unfold Room.findByCode at h
  have hm := List.mem_of_find?_eq_some h
  have hp := List.find?_some h
  simp only [Bool.and_eq_true, beq_iff_eq] at hp
  exact ⟨hm, hp.1, hp.2⟩

-- ────────────────────────────────────────────────────────────
-- C4: HTTP join pre-check outcomes
-- ────────────────────────────────────────────────────────────

/-- C4: for every join pre-check request whose code normalises to a
well-formed 6-character code: if no active room matches, the response is the
404 not-found status and the store is untouched; if a room matches but its
expiry has passed, the response is the 410 gone status — distinct from
not-found — and the room is deleted as a side effect (no room with that id
survives); otherwise the response is 200 success carrying
(room_code, type, expires_at) with no side effect. -/
theorem c4_join_precheck (store : Store) (rc : String) (now : Int)
    (hne : rc ≠ "") (hvalid : isValidCode (normalizeCode rc) = true) :
    (Room.findByCode store (normalizeCode rc) = none →
      joinRoom store (some rc) now =
        (.notFound "Room not found. It may have expired or never existed.",
         store)) ∧
    (∀ room, Room.findByCode store (normalizeCode rc) = some room →
      now ≥ room.expires_at →
      joinRoom store (some rc) now =
        (.gone "This session has expired and all messages have been permanently deleted.",
         Room.deleteById store room.id) ∧
      ∀ r' ∈ (joinRoom store (some rc) now).2.rooms, r'.id ≠ room.id) ∧
    (∀ room, Room.findByCode store (normalizeCode rc) = some room →
      now < room.expires_at →
      joinRoom store (some rc) now =
        (.okJoin room.room_code room.type room.expires_at, store)) ∧
    (∀ e1 e2, HttpResp.notFound e1 ≠ HttpResp.gone e2) := by
  refine ⟨?_, ?_, ?_, ?_⟩
  · intro hfind
    simp [joinRoom, hne, hvalid, hfind]
  · intro room hfind hexp
    constructor
    · simp [joinRoom, hne, hvalid, hfind, hexp]
    · intro r' hr'
      simp [joinRoom, hne, hvalid, hfind, hexp, Room.deleteById,
        List.mem_filter] at hr'
      exact hr'.2
  · intro room hfind halive
    simp [joinRoom, hne, hvalid, hfind, not_le.mpr halive]
  · intro e1 e2 h
    exact HttpResp.noConfusion h

def c4Room : Room :=
  { id := 1, room_code := "ABC123", type := "single",
    created_at := 0, expires_at := 40, is_active := true }

def c4Store : Store := { rooms := [c4Room], messages := [], nextRoomId := 2, nextMsgId := 1 }

/-- C4 witness: the gone/expired branch evaluated on a concrete store. -/
theorem c4_join_precheck_witness :
    joinRoom c4Store (some " abc123 ") 50 =
      (.gone "This session has expired and all messages have been permanently deleted.",
       Room.deleteById c4Store c4Room.id) ∧
    ∀ r' ∈ (joinRoom c4Store (some " abc123 ") 50).2.rooms, r'.id ≠ c4Room.id :=
  (c4_join_precheck c4Store " abc123 " 50 (by decide) (by decide)).2.1 c4Room
    (by decide) (by decide)

-- ────────────────────────────────────────────────────────────
-- C8: room code generation
-- ────────────────────────────────────────────────────────────

theorem generateLoop_all_collide (existsCode : String → Bool)
    (randBytes : Nat → Fin 6 → Nat) (hall : ∀ c, existsCode c = true) :
    ∀ fuel attempt, generateLoop existsCode randBytes attempt fuel =
      (Except.error "Failed to generate a unique room code after 5 attempts.", fuel) := by
  intro fuel
  induction fuel with
  | zero => intro attempt; simp [generateLoop]
  | succ n ih => intro attempt; simp [generateLoop, hall, ih]

theorem generateLoop_le (existsCode : String → Bool)
    (randBytes : Nat → Fin 6 → Nat) :
    ∀ fuel attempt, (generateLoop existsCode randBytes attempt fuel).2 ≤ fuel := by
  intro fuel
  induction fuel with
  | zero => intro attempt; simp [generateLoop]
  | succ n ih =>
    intro attempt
    by_cases h : existsCode (codeFromBytes (randBytes attempt)) = true
    · simp only [generateLoop, h, if_true]
      exact Nat.succ_le_succ (ih (attempt + 1))
    · simp only [generateLoop, h, if_false, Bool.false_eq_true]
      simp

theorem generateLoop_ok (existsCode : String → Bool)
    (randBytes : Nat → Fin 6 → Nat) :
    ∀ fuel attempt code,
      (generateLoop existsCode randBytes attempt fuel).1 = Except.ok code →
      existsCode code = false := by
  intro fuel
  induction fuel with
  | zero => intro attempt code h; simp [generateLoop] at h
  | succ n ih =>
    intro attempt code h
    by_cases hc : existsCode (codeFromBytes (randBytes attempt)) = true
    · simp only [generateLoop, hc, if_true] at h
      exact ih (attempt + 1) code h
    · simp only [generateLoop, hc, if_false, Bool.false_eq_true] at h
      simp at h
      subst h
      simpa using hc

/-- C8: codes are always 6 characters long; against an always-colliding
store the generator performs exactly 5 attempts and then fails with the
exhaustion error; the attempt count is bounded by 5 in every run; a returned
code was checked unique against the store; and when generation is exhausted
the creation request surfaces the 500 server error with the store untouched
(no transparent retry happens beyond the 5 bounded attempts). -/
theorem c8_code_generation (existsCode : String → Bool)
    (randBytes : Nat → Fin 6 → Nat) (store : Store) (ty : String)
    (dbNow expiresAt : Int) :
    (∀ bytes : Fin 6 → Nat, strLen (codeFromBytes bytes) = 6) ∧
    ((∀ c, existsCode c = true) →
      generateUniqueCode existsCode randBytes =
        (Except.error "Failed to generate a unique room code after 5 attempts.", 5)) ∧
    (generateUniqueCode existsCode randBytes).2 ≤ 5 ∧
    (∀ code, (generateUniqueCode existsCode randBytes).1 = Except.ok code →
      existsCode code = false) ∧
    (∀ e, (generateUniqueCode
        (fun c => (Room.findByCode store c).isSome) randBytes).1 = Except.error e →
      finishCreate randBytes store ty dbNow expiresAt =
        (.serverError "Server error creating room.", store)) := by
  refine ⟨?_, ?_, ?_, ?_, ?_⟩
  · intro bytes
    simp [strLen, codeFromBytes]
  · intro hall
    exact generateLoop_all_collide existsCode randBytes hall 5 0
  · exact generateLoop_le existsCode randBytes 5 0
  · intro code h
    exact generateLoop_ok existsCode randBytes 5 0 code h
  · intro e h
    unfold finishCreate
    rw [h]

def c8Store : Store :=
  { rooms := [{ id := 1, room_code := "AAAAAA", type := "group",
                created_at := 0, expires_at := 100, is_active := true }],
    messages := [], nextRoomId := 2, nextMsgId := 1 }

/-- C8 witness: a constant-zero byte stream always draws "AAAAAA"; against a
trivially colliding predicate the generator stops after exactly 5 attempts,
and against a store containing "AAAAAA" the creation tail answers the 500
server error. -/
theorem c8_code_generation_witness :
    (∀ bytes : Fin 6 → Nat, strLen (codeFromBytes bytes) = 6) ∧
    ((∀ c, (fun _ : String => true) c = true) →
      generateUniqueCode (fun _ => true) (fun _ _ => 0) =
        (Except.error "Failed to generate a unique room code after 5 attempts.", 5)) ∧
    (generateUniqueCode (fun _ => true) (fun _ _ => 0)).2 ≤ 5 ∧
    (∀ code, (generateUniqueCode (fun _ => true) (fun _ _ => 0)).1 = Except.ok code →
      (fun _ : String => true) code = false) ∧
    (∀ e, (generateUniqueCode
        (fun c => (Room.findByCode c8Store c).isSome) (fun _ _ => 0)).1 = Except.error e →
      finishCreate (fun _ _ => 0) c8Store "group" 0 100 =
        (.serverError "Server error creating room.", c8Store)) :=
  c8_code_generation (fun _ => true) (fun _ _ => 0) c8Store "group" 0 100

-- ────────────────────────────────────────────────────────────
-- C9: custom expiry validation
-- ────────────────────────────────────────────────────────────

/-- C9: a creation request with a malformed explicit expiry instant is NOT
answered with a validation-failure status: because
new Date(customExpiry).toISOString() is evaluated before the isNaN validity
check (roomController lines 367-375), an Invalid Date throws and the request
surfaces the 500 server error (no room is created, and the response is not a
badRequest). The dedicated 400 "Invalid customExpiry datetime format."
branch in the source is unreachable. -/
theorem c9_malformed_custom_expiry (parseDate : String → Option Int)
    (randBytes : Nat → Fin 6 → Nat) (store : Store) (ty s : String)
    (now dbNow : Int) (hty : ty = "single" ∨ ty = "group") (hs : s ≠ "")
    (hbad : parseDate s = none) :
    createRoom parseDate randBytes store ty "custom" (some s) now dbNow =
      (.serverError "Server error creating room.", store) ∧
    ∀ e, (HttpResp.serverError "Server error creating room.") ≠ HttpResp.badRequest e := by
  constructor
  · rcases hty with h | h <;> subst h <;>
      simp +decide [createRoom, hs, hbad]
  · intro e h
    exact HttpResp.noConfusion h

/-- C9 witness: an unparseable customExpiry on a concrete request. -/
theorem c9_malformed_custom_expiry_witness :
    createRoom (fun _ => none) (fun _ _ => 0) c8Store "group" "custom"
        (some "not-a-date") 0 0 =
      (.serverError "Server error creating room.", c8Store) ∧
    ∀ e, (HttpResp.serverError "Server error creating room.") ≠ HttpResp.badRequest e :=
  c9_malformed_custom_expiry (fun _ => none) (fun _ _ => 0) c8Store "group"
    "not-a-date" 0 0 (Or.inr rfl) (by decide) rfl

-- ────────────────────────────────────────────────────────────
-- C7: message ordering
-- ────────────────────────────────────────────────────────────

def c7room : Room :=
  { id := 1, room_code := "ABC123", type := "group",
    created_at := 0, expires_at := 10000000, is_active := true }

def c7m1 : Message :=
  { id := 1, room_id := 1, nickname := "al", content := "Zmlyc3Q=",
    iv := "aXYx", sent_at := 5000 }

def c7m2 : Message :=
  { id := 2, room_id := 1, nickname := "bo", content := "c2Vjb25k",
    iv := "aXYy", sent_at := 5000 }

def c7store : Store :=
  { rooms := [c7room], messages := [c7m1, c7m2], nextRoomId := 2, nextMsgId := 3 }

/-- C7 counterexample: two messages sent in the order c7m1, c7m2 within the
same second carry equal sent_at stamps (DATETIME has second granularity), so
the reversed list is also a legal result of ORDER BY sent_at ASC — a history
fetch is not guaranteed to return the exact send order. -/
theorem c7_history_tie_counterexample :
    isHistoryResult c7store 1 [c7m2, c7m1] ∧
    [c7m2, c7m1] ≠ roomMessages c7store 1 := by
  constructor
  · constructor
    · decide
    · decide
  · decide

/-- C7 (amended): every list the history query may return is a permutation
of the room's messages in non-decreasing sent_at order, and whenever the
stored send timestamps are strictly increasing (no two messages within the
same second) that list is exactly the send-ordered message list. -/
theorem c7_history_strict_order (s : Store) (roomId : Nat) (l : List Message)
    (h : isHistoryResult s roomId l)
    (hstrict : (roomMessages s roomId).Pairwise (fun a b => a.sent_at < b.sent_at)) :
    l = roomMessages s roomId := by
  obtain ⟨hperm, hsorted⟩ := h
  have hsym : Symmetric (fun a b : Message => a.sent_at ≠ b.sent_at) :=
    fun a b hab => Ne.symm hab
  have hnd : (roomMessages s roomId).Pairwise
      (fun a b => a.sent_at ≠ b.sent_at) :=
    hstrict.imp (fun hab => ne_of_lt hab)
  have hne : ∀ a ∈ roomMessages s roomId, ∀ b ∈ roomMessages s roomId,
      a ≠ b → a.sent_at ≠ b.sent_at :=
    fun a ha b hb hab => hnd.forall hsym ha hb hab
  have hmnodup : (roomMessages s roomId).Nodup := by
    refine hstrict.imp ?_
    intro a b hab heq
    rw [heq] at hab
    exact lt_irrefl _ hab
  have hlnodup : l.Nodup := hperm.symm.nodup hmnodup
  have hlt : l.Pairwise (fun a b : Message => a.sent_at < b.sent_at) := by
    have hcomb := hsorted.and hlnodup
    refine hcomb.imp_of_mem ?_
    intro a b ha hb hab
    exact lt_of_le_of_ne hab.1
      (hne a (hperm.subset ha) b (hperm.subset hb) hab.2)
  haveI : IsAntisymm Message (fun a b => a.sent_at < b.sent_at) :=
    ⟨fun a b h1 h2 => absurd h2 (lt_asymm h1)⟩
  exact List.eq_of_perm_of_sorted hperm hlt hstrict

def c7wm1 : Message :=
  { id := 1, room_id := 1, nickname := "al", content := "Zmlyc3Q=",
    iv := "aXYx", sent_at := 1000 }

def c7wm2 : Message :=
  { id := 2, room_id := 1, nickname := "bo", content := "c2Vjb25k",
    iv := "aXYy", sent_at := 2000 }

def c7wstore : Store :=
  { rooms := [c7room], messages := [c7wm1, c7wm2], nextRoomId := 2, nextMsgId := 3 }

/-- C7 witness: distinct send seconds force the unique sorted result. -/
theorem c7_history_strict_order_witness :
    [c7wm1, c7wm2] = roomMessages c7wstore 1 :=
  c7_history_strict_order c7wstore 1 [c7wm1, c7wm2]
    (by constructor <;> decide) (by decide)

-- ────────────────────────────────────────────────────────────
-- C2: one sweep cycle over an expired room
-- ────────────────────────────────────────────────────────────

def c2room : Room :=
  { id := 1, room_code := "ABC123", type := "group",
    created_at := 0, expires_at := 10, is_active := true }

def c2state : ServerState :=
  { store := { rooms := [c2room],
               messages := [{ id := 1, room_id := 1, nickname := "al",
                              content := "Zm9v", iv := "aXY=", sent_at := 5 }],
               nextRoomId := 2, nextMsgId := 2 },
    roomParticipants := [("ABC123", [7])],
    channels := [("ABC123", [7])],
    sessions := [(7, ⟨some "ABC123", some "al", some 1⟩)] }

/-- C2 counterexample: after one sweep over an expired room with one joined
session, the participant registry still holds that session under the room
code — the sweep removes sockets from the broadcast channel but never
touches roomParticipants, so part (b) of the claim fails. -/
theorem c2_registry_not_cleared :
    lookupD (sweepTick (fun _ => false) c2state 20).1.roomParticipants
      "ABC123" [] = [7] ∧
    ([7] : List Nat) ≠ [] := by
  constructor
  · decide
  · decide

/-- C2 (amended): for a sweep whose expired-room query returns exactly one
room (with its code unique in the store) and where no deletion fails:
(a) exactly one expiry delivery goes to each socket in the room's broadcast
channel; the channel is emptied; (b) the participant-registry entries for
the code are NOT removed — the registry is left exactly as it was (entries
disappear only when each session disconnects); (c) no Room record with that
code and no Message record of that room survive in the store. -/
theorem c2_sweep_eviction (st : ServerState) (dbNow : Int) (r : Room)
    (hexp : Room.findExpired st.store dbNow = [r])
    (huniq : ∀ r' ∈ st.store.rooms, r'.room_code = r.room_code → r' = r) :
    (sweepTick (fun _ => false) st dbNow).2 =
      (lookupD st.channels r.room_code []).map (fun m =>
        ({ sid := m, event := "room:expired",
           text := some sweepExpiredText } : Delivery)) ∧
    lookupD (sweepTick (fun _ => false) st dbNow).1.channels
      r.room_code [] = ([] : List Nat) ∧
    (sweepTick (fun _ => false) st dbNow).1.roomParticipants =
      st.roomParticipants ∧
    (∀ r' ∈ (sweepTick (fun _ => false) st dbNow).1.store.rooms,
      r'.room_code ≠ r.room_code) ∧
    (∀ m ∈ (sweepTick (fun _ => false) st dbNow).1.store.messages,
      m.room_id ≠ r.id) := by
  have hrun : sweepTick (fun _ => false) st dbNow =
      ({ st with channels := removeKey st.channels r.room_code,
                 store := Room.deleteById st.store r.id },
       (lookupD st.channels r.room_code []).map (fun m =>
         ({ sid := m, event := "room:expired",
            text := some sweepExpiredText } : Delivery))) := by
    unfold sweepTick
    rw [hexp]
    simp [sweepLoop]
  rw [hrun]
  refine ⟨rfl, ?_, rfl, ?_, ?_⟩
  · exact lookupD_removeKey_self st.channels r.room_code []
  · intro r' hr'
    simp only [Room.deleteById, List.mem_filter, decide_eq_true_eq] at hr'
    intro hcode
    exact hr'.2 (by rw [huniq r' hr'.1 hcode])
  · intro m hm
    simp only [Room.deleteById, List.mem_filter, decide_eq_true_eq] at hm
    exact hm.2

/-- C2 witness: the amended sweep behaviour on the concrete state. -/
theorem c2_sweep_eviction_witness :
    (sweepTick (fun _ => false) c2state 20).2 =
      (lookupD c2state.channels c2room.room_code []).map (fun m =>
        ({ sid := m, event := "room:expired",
           text := some sweepExpiredText } : Delivery)) ∧
    lookupD (sweepTick (fun _ => false) c2state 20).1.channels
      c2room.room_code [] = ([] : List Nat) ∧
    (sweepTick (fun _ => false) c2state 20).1.roomParticipants =
      c2state.roomParticipants ∧
    (∀ r' ∈ (sweepTick (fun _ => false) c2state 20).1.store.rooms,
      r'.room_code ≠ c2room.room_code) ∧
    (∀ m ∈ (sweepTick (fun _ => false) c2state 20).1.store.messages,
      m.room_id ≠ c2room.id) :=
  c2_sweep_eviction c2state 20 c2room (by decide) (by decide)

-- ────────────────────────────────────────────────────────────
-- C3: chat:message liveness re-validation
-- ────────────────────────────────────────────────────────────

def c3room : Room :=
  { id := 1, room_code := "ABC123", type := "group",
    created_at := 0, expires_at := 10, is_active := true }

def c3state : ServerState :=
  { store := { rooms := [c3room], messages := [], nextRoomId := 2, nextMsgId := 1 },
    roomParticipants := [("ABC123", [7])],
    channels := [("ABC123", [7])],
    sessions := [(7, ⟨some "ABC123", some "al", some 1⟩)] }

def c3payload : MsgPayload :=
  { content := some "Y2lwaGVydGV4dA==", iv := some "aXY=", extra := [] }

/-- C3 counterexample: at instant 20 the room is no longer alive (its expiry
10 has passed) yet still present in the store (the sweeper has not run), and
the chat:message handler persists the message and broadcasts it to the room
instead of emitting room-expired — the handler does not re-validate
liveness, only existence. -/
theorem c3_expired_room_still_relays :
    (20 : Int) ≥ c3room.expires_at ∧
    Room.findByCode c3state.store "ABC123" = some c3room ∧
    (chatMessage (fun s => s) c3state 7 c3payload 20 20).1.store.messages ≠ [] ∧
    (∀ d ∈ (chatMessage (fun s => s) c3state 7 c3payload 20 20).2,
      d.event = "chat:message") ∧
    (chatMessage (fun s => s) c3state 7 c3payload 20 20).2 ≠ [] := by
  refine ⟨by decide, by decide, by decide, by decide, by decide⟩

/-- C3 (amended): on a send from a joined session with a valid payload, the
handler re-checks only that the room still EXISTS in the store: when
findByCode returns nothing it emits room-expired to the sender and neither
persists nor broadcasts anything (the session fields are left as they were;
there is no server-side forced transition). A room whose expiry has passed
but which is still stored is treated as alive. -/
theorem c3_gone_room_check (xssFn : String → String) (st : ServerState)
    (sid : Nat) (p : MsgPayload) (dbNow now : Int) (code nick c i : String)
    (hroom : (getSession st sid).currentRoom = some code)
    (hnick : (getSession st sid).nickname = some nick)
    (hc : p.content = some c) (hc0 : c ≠ "")
    (hi : p.iv = some i) (hi0 : i ≠ "")
    (hlen : strLen c ≤ 65536)
    (hgone : Room.findByCode st.store code = none) :
    chatMessage xssFn st sid p dbNow now =
      (st, [{ sid := sid, event := "room:expired",
              text := some "Room no longer exists." }]) := by
  simp only [chatMessage, hroom, hnick, hc, hi]
  simp [hc0, hi0, Nat.not_lt.mpr hlen, hgone]

def c3wstate : ServerState :=
  { store := { rooms := [], messages := [], nextRoomId := 1, nextMsgId := 1 },
    roomParticipants := [], channels := [],
    sessions := [(7, ⟨some "ABC123", some "al", some 1⟩)] }

/-- C3 witness: a vanished room answers room-expired with no side effect. -/
theorem c3_gone_room_check_witness :
    chatMessage (fun s => s) c3wstate 7 c3payload 20 20 =
      (c3wstate, [{ sid := 7, event := "room:expired",
                    text := some "Room no longer exists." }]) :=
  c3_gone_room_check (fun s => s) c3wstate 7 c3payload 20 20 "ABC123" "al"
    "Y2lwaGVydGV4dA==" "aXY=" (by decide) (by decide) rfl (by decide) rfl
    (by decide) (by decide) rfl

-- ────────────────────────────────────────────────────────────
-- C6: per-room isolation of the sweep
-- ────────────────────────────────────────────────────────────

def c6r1 : Room :=
  { id := 1, room_code := "AAAAAA", type := "group",
    created_at := 0, expires_at := 10, is_active := true }

def c6r2 : Room :=
  { id := 2, room_code := "BBBBBB", type := "group",
    created_at := 0, expires_at := 10, is_active := true }

def c6state : ServerState :=
  { store := { rooms := [c6r1, c6r2], messages := [], nextRoomId := 3, nextMsgId := 1 },
    roomParticipants := [], channels := [], sessions := [] }

/-- C6 counterexample: both rooms are expired, the first room's deletion
fails, and the second expired room is still in the store after the sweep —
a failure on one room aborts the eviction of the remaining rooms of that
same sweep (the catch sits around the whole loop, not inside it). -/
theorem c6_failure_aborts_sweep :
    c6r2 ∈ Room.findExpired c6state.store 20 ∧
    c6r2 ∈ (sweepTick (fun i => i == 1) c6state 20).1.store.rooms := by
  constructor
  · decide
  · decide

/-- C6 (amended): when the expired snapshot is [r1, r2] and deleting r1
fails, the failure is caught at the sweep boundary (the tick returns instead
of crashing) but the sweep stops there: the store is left untouched (r1 was
notified and detached but not deleted, r2 not processed at all), only r1's
channel was cleared, and only r1's members were notified. The remaining
rooms wait for the next tick. -/
theorem c6_sweep_abort (failDelete : Nat → Bool) (st : ServerState)
    (dbNow : Int) (r1 r2 : Room)
    (hexp : Room.findExpired st.store dbNow = [r1, r2])
    (hfail : failDelete r1.id = true) :
    (sweepTick failDelete st dbNow).1.store = st.store ∧
    (sweepTick failDelete st dbNow).1.channels =
      removeKey st.channels r1.room_code ∧
    (sweepTick failDelete st dbNow).2 =
      (lookupD st.channels r1.room_code []).map (fun m =>
        ({ sid := m, event := "room:expired",
           text := some sweepExpiredText } : Delivery)) := by
  unfold sweepTick
  rw [hexp]
  simp [sweepLoop, hfail]

/-- C6 witness: the abort behaviour on the concrete two-room state. -/
theorem c6_sweep_abort_witness :
    (sweepTick (fun i => i == 1) c6state 20).1.store = c6state.store ∧
    (sweepTick (fun i => i == 1) c6state 20).1.channels =
      removeKey c6state.channels c6r1.room_code ∧
    (sweepTick (fun i => i == 1) c6state 20).2 =
      (lookupD c6state.channels c6r1.room_code []).map (fun m =>
        ({ sid := m, event := "room:expired",
           text := some sweepExpiredText } : Delivery)) :=
  c6_sweep_abort (fun i => i == 1) c6state 20 c6r1 c6r2 (by decide) (by decide)

-- ────────────────────────────────────────────────────────────
-- C10: nickname provenance of relayed messages
-- ────────────────────────────────────────────────────────────

/-- Case shape of the chat:message handler: either the state is unchanged and
every delivery is a nickname-free room:expired signal, or the session's
join-time nickname is attached both to the persisted row and to every
broadcast delivery. -/
theorem chatMessage_shape (xssFn : String → String) (st : ServerState)
    (sid : Nat) (p : MsgPayload) (dbNow now : Int) :
    ((chatMessage xssFn st sid p dbNow now).1 = st ∧
      ∀ d ∈ (chatMessage xssFn st sid p dbNow now).2,
        d.event = "room:expired" ∧ d.nickname = none) ∨
    (∃ nick cleanContent cleanIv code,
      (getSession st sid).nickname = some nick ∧
      (chatMessage xssFn st sid p dbNow now).1 =
        { st with store := (Message.create st.store
            ((getSession st sid).roomId.getD 0) nick cleanContent cleanIv dbNow).1 } ∧
      (chatMessage xssFn st sid p dbNow now).2 =
        (lookupD st.channels code []).map (fun m =>
          ({ sid := m, event := "chat:message",
             msgId := some (Message.create st.store
               ((getSession st sid).roomId.getD 0) nick cleanContent cleanIv dbNow).2,
             nickname := some nick, content := some cleanContent,
             iv := some cleanIv, ts := some now } : Delivery))) := by
  rcases hcr : (getSession st sid).currentRoom with _ | code
  · exact Or.inl ⟨by simp [chatMessage, hcr], by
      intro d hd
      simp [chatMessage, hcr] at hd⟩
  · rcases hnick : (getSession st sid).nickname with _ | nick
    · exact Or.inl ⟨by simp [chatMessage, hcr, hnick], by
        intro d hd
        simp [chatMessage, hcr, hnick] at hd⟩
    · rcases hc : p.content with _ | c
      · exact Or.inl ⟨by simp [chatMessage, hcr, hnick, hc], by
          intro d hd
          simp [chatMessage, hcr, hnick, hc] at hd⟩
      · rcases hi : p.iv with _ | i
        · exact Or.inl ⟨by simp [chatMessage, hcr, hnick, hc, hi], by
            intro d hd
            simp [chatMessage, hcr, hnick, hc, hi] at hd⟩
        · by_cases hce : c = ""
          · exact Or.inl ⟨by simp [chatMessage, hcr, hnick, hc, hi, hce], by
              intro d hd
              simp [chatMessage, hcr, hnick, hc, hi, hce] at hd⟩
          · by_cases hie : i = ""
            · exact Or.inl ⟨by simp [chatMessage, hcr, hnick, hc, hi, hce, hie], by
                intro d hd
                simp [chatMessage, hcr, hnick, hc, hi, hce, hie] at hd⟩
            · by_cases hlen : strLen c > 65536
              · exact Or.inl ⟨by simp [chatMessage, hcr, hnick, hc, hi, hce, hie, hlen], by
                  intro d hd
                  simp [chatMessage, hcr, hnick, hc, hi, hce, hie, hlen] at hd⟩
              · rcases hf : Room.findByCode st.store code with _ | room
                · left
                  constructor
                  · simp [chatMessage, hcr, hnick, hc, hi, hce, hie, hlen, hf]
                  · intro d hd
                    simp [chatMessage, hcr, hnick, hc, hi, hce, hie, hlen, hf] at hd
                    subst hd
                    exact ⟨rfl, rfl⟩
                · right
                  refine ⟨nick, xssFn (String.mk (trimChars c.data)),
                    xssFn (String.mk (trimChars i.data)), code, rfl, ?_, ?_⟩
                  · simp [chatMessage, hcr, hnick, hc, hi, hce, hie, hlen, hf]
                  · simp [chatMessage, hcr, hnick, hc, hi, hce, hie, hlen, hf]

/-- C10: the nickname attached to every message the chat:message handler
persists or broadcasts is exactly the validated nickname recorded for the
session at join time; no field of the payload influences it — two payloads
that agree on content and iv (differing only in extra fields) produce the
identical result, every surviving store row is either pre-existing or
carries the session nickname, and every chat:message delivery carries the
session nickname. -/
theorem c10_nickname_integrity (xssFn : String → String) (st : ServerState)
    (sid : Nat) (p1 p2 : MsgPayload) (dbNow now : Int) (nick : String)
    (hnick : (getSession st sid).nickname = some nick) :
    (p1.content = p2.content → p1.iv = p2.iv →
      chatMessage xssFn st sid p1 dbNow now =
        chatMessage xssFn st sid p2 dbNow now) ∧
    (∀ m ∈ (chatMessage xssFn st sid p1 dbNow now).1.store.messages,
      m ∈ st.store.messages ∨ m.nickname = nick) ∧
    (∀ d ∈ (chatMessage xssFn st sid p1 dbNow now).2,
      d.event = "chat:message" → d.nickname = some nick) := by
  refine ⟨?_, ?_, ?_⟩
  · intro h1 h2
    cases p1
    cases p2
    dsimp only at h1 h2
    subst h1
    subst h2
    rfl
  · intro m hm
    rcases chatMessage_shape xssFn st sid p1 dbNow now with
      ⟨hst, _⟩ | ⟨nick0, cc, ci, code, hnick0, hst, _⟩
    · rw [hst] at hm
      exact Or.inl hm
    · rw [hnick] at hnick0
      obtain rfl : nick = nick0 := Option.some.inj hnick0
      rw [hst] at hm
      simp only [Message.create, List.mem_append, List.mem_singleton] at hm
      rcases hm with hm | hm
      · exact Or.inl hm
      · right
        rw [hm]
  · intro d hd hev
    rcases chatMessage_shape xssFn st sid p1 dbNow now with
      ⟨_, hds⟩ | ⟨nick0, cc, ci, code, hnick0, _, hds⟩
    · have := (hds d hd).1
      rw [hev] at this
      exact absurd this (by decide)
    · rw [hnick] at hnick0
      obtain rfl : nick = nick0 := Option.some.inj hnick0
      rw [hds] at hd
      simp only [List.mem_map] at hd
      obtain ⟨m, _, hm⟩ := hd
      rw [← hm]

def c10p1 : MsgPayload := { content := some "Zm9v", iv := some "aXY=", extra := [] }

def c10p2 : MsgPayload :=
  { content := some "Zm9v", iv := some "aXY=", extra := [("nickname", "bo")] }

/-- C10 witness: a payload smuggling an extra nickname field changes nothing,
and the session nickname "al" is the one persisted and broadcast. -/
theorem c10_nickname_integrity_witness :
    (chatMessage (fun s => s) c3state 7 c10p1 5 5 =
      chatMessage (fun s => s) c3state 7 c10p2 5 5) ∧
    (∀ m ∈ (chatMessage (fun s => s) c3state 7 c10p1 5 5).1.store.messages,
      m ∈ c3state.store.messages ∨ m.nickname = "al") ∧
    (∀ d ∈ (chatMessage (fun s => s) c3state 7 c10p1 5 5).2,
      d.event = "chat:message" → d.nickname = some "al") := by
  have h := c10_nickname_integrity (fun s => s) c3state 7 c10p1 c10p2 5 5 "al"
    (by decide)
  exact ⟨h.1 rfl rfl, h.2.1, h.2.2⟩

-- ────────────────────────────────────────────────────────────
-- C5: single-room capacity
-- ────────────────────────────────────────────────────────────

/-- Modelled from schema.sql line 19: CONSTRAINT uq_room_code UNIQUE —
two room rows never share a code. -/
def uniqueRoomCodes (s : Store) : Prop :=
  ∀ r1 ∈ s.rooms, ∀ r2 ∈ s.rooms, r1.room_code = r2.room_code → r1 = r2

instance (s : Store) : Decidable (uniqueRoomCodes s) := by
  unfold uniqueRoomCodes; infer_instance

/-- The capacity bound: an active single room never has more than two
registered sessions under its code. -/
def singleCapacityInv (st : ServerState) : Prop :=
  ∀ r ∈ st.store.rooms, r.is_active = true → r.type = "single" →
    (lookupD st.roomParticipants r.room_code []).length ≤ 2

instance (st : ServerState) : Decidable (singleCapacityInv st) := by
  unfold singleCapacityInv; infer_instance

/-- Effect of chat:join on the registry and the room table: either nothing
changes, or an expired room is lazily deleted (registry untouched), or the
session is registered under the code of a found room whose capacity guard
did not fire. -/
theorem chatJoin_shape (xssFn : String → String) (st : ServerState) (sid : Nat)
    (rc nick : Option String) (now : Int) :
    ((chatJoin xssFn st sid rc nick now).1.roomParticipants = st.roomParticipants ∧
     (chatJoin xssFn st sid rc nick now).1.store.rooms = st.store.rooms) ∨
    ((chatJoin xssFn st sid rc nick now).1.roomParticipants = st.roomParticipants ∧
     ∃ roomId, (chatJoin xssFn st sid rc nick now).1.store.rooms =
       st.store.rooms.filter (fun r => r.id ≠ roomId)) ∨
    (∃ code room, Room.findByCode st.store code = some room ∧
      ¬ (room.type = "single" ∧ (lookupD st.roomParticipants code []).length ≥ 2 ∧
          sid ∉ lookupD st.roomParticipants code []) ∧
      (chatJoin xssFn st sid rc nick now).1.roomParticipants =
        addMember st.roomParticipants code sid ∧
      (chatJoin xssFn st sid rc nick now).1.store.rooms = st.store.rooms) := by
  rcases rc with _ | rc
  · exact Or.inl ⟨by simp [chatJoin], by simp [chatJoin]⟩
  rcases nick with _ | nick
  · exact Or.inl ⟨by simp [chatJoin], by simp [chatJoin]⟩
  by_cases h1 : rc = ""
  · exact Or.inl ⟨by simp [chatJoin, h1], by simp [chatJoin, h1]⟩
  by_cases h2 : nick = ""
  · exact Or.inl ⟨by simp [chatJoin, h1, h2], by simp [chatJoin, h1, h2]⟩
  cases h3 : isValidCode (xssFn (normalizeCode rc)) with
  | false =>
    exact Or.inl ⟨by simp [chatJoin, h1, h2, h3], by simp [chatJoin, h1, h2, h3]⟩
  | true =>
  by_cases h4 : strLen (xssFn (normalizeNick nick)) < 1
  · exact Or.inl ⟨by simp [chatJoin, h1, h2, h3, h4], by simp [chatJoin, h1, h2, h3, h4]⟩
  rcases h5 : Room.findByCode st.store (xssFn (normalizeCode rc)) with _ | room
  · exact Or.inl ⟨by simp [chatJoin, h1, h2, h3, h4, h5],
      by simp [chatJoin, h1, h2, h3, h4, h5]⟩
  by_cases h6 : now ≥ room.expires_at
  · refine Or.inr (Or.inl ⟨by simp [chatJoin, h1, h2, h3, h4, h5, h6], room.id, ?_⟩)
    simp [chatJoin, h1, h2, h3, h4, h5, h6, Room.deleteById]
  by_cases h7 : room.type = "single" ∧
      (lookupD st.roomParticipants (xssFn (normalizeCode rc)) []).length ≥ 2 ∧
      sid ∉ lookupD st.roomParticipants (xssFn (normalizeCode rc)) []
  · exact Or.inl ⟨by simp [chatJoin, h1, h2, h3, h4, h5, h6, h7.1, h7.2.1, h7.2.2],
      by simp [chatJoin, h1, h2, h3, h4, h5, h6, h7.1, h7.2.1, h7.2.2]⟩
  · refine Or.inr (Or.inr ⟨xssFn (normalizeCode rc), room, h5, h7, ?_, ?_⟩)
    · simp [chatJoin, h1, h2, h3, h4, h5, h6, h7]
    · simp [chatJoin, h1, h2, h3, h4, h5, h6, h7]

/-- chat:join preserves the capacity bound. -/
theorem chatJoin_capacity (xssFn : String → String) (st : ServerState)
    (sid : Nat) (rc nick : Option String) (now : Int)
    (huniq : uniqueRoomCodes st.store) (hinv : singleCapacityInv st) :
    singleCapacityInv (chatJoin xssFn st sid rc nick now).1 := by
  rcases chatJoin_shape xssFn st sid rc nick now with
    ⟨hp, hr⟩ | ⟨hp, roomId, hr⟩ | ⟨code, room, hfind, hguard, hp, hr⟩
  · intro r hrm hact hty
    rw [hr] at hrm
    rw [hp]
    exact hinv r hrm hact hty
  · intro r hrm hact hty
    rw [hr] at hrm
    rw [hp]
    exact hinv r (List.mem_filter.mp hrm).1 hact hty
  · intro r hrm hact hty
    rw [hr] at hrm
    rw [hp]
    obtain ⟨hmem, hcode, hactive⟩ := Room.findByCode_some st.store code room hfind
    by_cases hc : r.room_code = code
    · have hreq : r = room := huniq r hrm room hmem (by rw [hc, hcode])
      have hsingle : room.type = "single" := by rw [← hreq]; exact hty
      rw [hc, lookupD_addMember_self]
      by_cases hm : sid ∈ lookupD st.roomParticipants code []
      · rw [if_pos hm]
        have := hinv r hrm hact hty
        rwa [hc] at this
      · rw [if_neg hm]
        have hlt : (lookupD st.roomParticipants code []).length < 2 := by
          by_contra hge
          exact hguard ⟨hsingle, Nat.not_lt.mp hge, hm⟩
        simp only [List.length_append, List.length_singleton]
        omega
    · rw [lookupD_addMember_ne st.roomParticipants code r.room_code sid hc]
      exact hinv r hrm hact hty

/-- disconnect only shrinks registry entries and leaves the store alone. -/
theorem onDisconnect_capacity (st : ServerState) (sid : Nat) (now : Int)
    (code' : String) :
    (lookupD (onDisconnect st sid now).1.roomParticipants code' []).length ≤
      (lookupD st.roomParticipants code' []).length ∧
    (onDisconnect st sid now).1.store = st.store := by
  rcases hcr : (getSession st sid).currentRoom with _ | code
  · constructor
    · simp [onDisconnect, hcr]
    · simp [onDisconnect, hcr]
  · constructor
    · simp only [onDisconnect, hcr]
      by_cases hfs : (List.find? (fun e => e.1 = code) st.roomParticipants).isSome = true
      · rw [if_pos hfs]
        by_cases hrem :
            (lookupD st.roomParticipants code []).filter (fun x => x ≠ sid) = []
        · rw [if_pos hrem]
          by_cases hcc : code' = code
          · subst hcc
            rw [lookupD_removeKey_self]
            simp
          · rw [lookupD_removeKey_ne st.roomParticipants code code' [] hcc]
        · rw [if_neg hrem]
          by_cases hcc : code' = code
          · subst hcc
            rw [lookupD_setKey_self]
            exact List.length_filter_le _ _
          · rw [lookupD_setKey_ne st.roomParticipants code code' _ [] hcc]
      · rw [if_neg hfs]
    · simp [onDisconnect, hcr]

/-- A third distinct session hitting a full single room is rejected with the
room-full error and the whole server state is unchanged. -/
theorem chatJoin_reject_full (xssFn : String → String) (st : ServerState)
    (sid : Nat) (rc nick : String) (now : Int) (room : Room)
    (h1 : rc ≠ "") (h2 : nick ≠ "")
    (h3 : isValidCode (xssFn (normalizeCode rc)) = true)
    (h4 : 1 ≤ strLen (xssFn (normalizeNick nick)))
    (h5 : Room.findByCode st.store (xssFn (normalizeCode rc)) = some room)
    (h6 : now < room.expires_at)
    (h7 : room.type = "single")
    (h8 : 2 ≤ (lookupD st.roomParticipants (xssFn (normalizeCode rc)) []).length)
    (h9 : sid ∉ lookupD st.roomParticipants (xssFn (normalizeCode rc)) []) :
    chatJoin xssFn st sid (some rc) (some nick) now =
      (st, [{ sid := sid, event := "error:room",
              text := some "This private room is full (max 2 users)." }]) := by
  simp [chatJoin, h1, h2, h3, Nat.not_lt.mpr h4, h5, not_le.mpr h6, h7, h8, h9]

/-- The chat:joined confirmation sent to a successfully joining socket
(server.js lines 181-186). -/
def joinedDelivery (sid : Nat) (cleanNick : String) (expiresAt : Int) : Delivery :=
  { sid := sid, event := "chat:joined", nickname := some cleanNick,
    ts := some expiresAt }

/-- A join by an already-registered session leaves its registry entry as it
was and completes with the chat:joined confirmation. -/
theorem chatJoin_rejoin (xssFn : String → String) (st : ServerState)
    (sid : Nat) (rc nick : String) (now : Int) (room : Room)
    (h1 : rc ≠ "") (h2 : nick ≠ "")
    (h3 : isValidCode (xssFn (normalizeCode rc)) = true)
    (h4 : 1 ≤ strLen (xssFn (normalizeNick nick)))
    (h5 : Room.findByCode st.store (xssFn (normalizeCode rc)) = some room)
    (h6 : now < room.expires_at)
    (h7 : sid ∈ lookupD st.roomParticipants (xssFn (normalizeCode rc)) []) :
    lookupD (chatJoin xssFn st sid (some rc) (some nick) now).1.roomParticipants
      (xssFn (normalizeCode rc)) [] =
      lookupD st.roomParticipants (xssFn (normalizeCode rc)) [] ∧
    ∃ d ∈ (chatJoin xssFn st sid (some rc) (some nick) now).2,
      d.event = "chat:joined" ∧ d.sid = sid := by
  constructor
  · simp [chatJoin, h1, h2, h3, Nat.not_lt.mpr h4, h5, not_le.mpr h6, h7, addMember]
  · have hmem2 : joinedDelivery sid (xssFn (normalizeNick nick)) room.expires_at ∈
        (chatJoin xssFn st sid (some rc) (some nick) now).2 := by
      simp [chatJoin, joinedDelivery, h1, h2, h3, Nat.not_lt.mpr h4, h5,
        not_le.mpr h6, h7]
    exact ⟨_, hmem2, rfl, rfl⟩

/-- C5: for single-kind rooms, (1) the at-most-2 registration bound is an
invariant preserved by every chat:join (given the unique-code constraint of
the schema), (2) it is preserved by every disconnect, (3) a third distinct
session joining a full single room is rejected with the capacity error and
no state changes at all, and (4) a join by an already-registered session
succeeds (chat:joined is delivered) leaving its registry entry unchanged —
the idempotent rejoin. -/
theorem c5_single_room_capacity :
    (∀ (xssFn : String → String) (st : ServerState) (sid : Nat)
        (rc nick : Option String) (now : Int),
      uniqueRoomCodes st.store → singleCapacityInv st →
      singleCapacityInv (chatJoin xssFn st sid rc nick now).1) ∧
    (∀ (st : ServerState) (sid : Nat) (now : Int),
      singleCapacityInv st → singleCapacityInv (onDisconnect st sid now).1) ∧
    (∀ (xssFn : String → String) (st : ServerState) (sid : Nat)
        (rc nick : String) (now : Int) (room : Room),
      rc ≠ "" → nick ≠ "" →
      isValidCode (xssFn (normalizeCode rc)) = true →
      1 ≤ strLen (xssFn (normalizeNick nick)) →
      Room.findByCode st.store (xssFn (normalizeCode rc)) = some room →
      now < room.expires_at →
      room.type = "single" →
      2 ≤ (lookupD st.roomParticipants (xssFn (normalizeCode rc)) []).length →
      sid ∉ lookupD st.roomParticipants (xssFn (normalizeCode rc)) [] →
      chatJoin xssFn st sid (some rc) (some nick) now =
        (st, [{ sid := sid, event := "error:room",
                text := some "This private room is full (max 2 users)." }])) ∧
    (∀ (xssFn : String → String) (st : ServerState) (sid : Nat)
        (rc nick : String) (now : Int) (room : Room),
      rc ≠ "" → nick ≠ "" →
      isValidCode (xssFn (normalizeCode rc)) = true →
      1 ≤ strLen (xssFn (normalizeNick nick)) →
      Room.findByCode st.store (xssFn (normalizeCode rc)) = some room →
      now < room.expires_at →
      sid ∈ lookupD st.roomParticipants (xssFn (normalizeCode rc)) [] →
      lookupD (chatJoin xssFn st sid (some rc) (some nick) now).1.roomParticipants
        (xssFn (normalizeCode rc)) [] =
        lookupD st.roomParticipants (xssFn (normalizeCode rc)) [] ∧
      ∃ d ∈ (chatJoin xssFn st sid (some rc) (some nick) now).2,
        d.event = "chat:joined" ∧ d.sid = sid) := by
  refine ⟨?_, ?_, ?_, ?_⟩
  · intro xssFn st sid rc nick now huniq hinv
    exact chatJoin_capacity xssFn st sid rc nick now huniq hinv
  · intro st sid now hinv r hr hact hty
    obtain ⟨hle, hst⟩ := onDisconnect_capacity st sid now r.room_code
    rw [hst] at hr
    exact le_trans hle (hinv r hr hact hty)
  · intro xssFn st sid rc nick now room h1 h2 h3 h4 h5 h6 h7 h8 h9
    exact chatJoin_reject_full xssFn st sid rc nick now room h1 h2 h3 h4 h5 h6 h7 h8 h9
  · intro xssFn st sid rc nick now room h1 h2 h3 h4 h5 h6 h7
    exact chatJoin_rejoin xssFn st sid rc nick now room h1 h2 h3 h4 h5 h6 h7

def c5room : Room :=
  { id := 1, room_code := "ABC123", type := "single",
    created_at := 0, expires_at := 100, is_active := true }

def c5state : ServerState :=
  { store := { rooms := [c5room], messages := [], nextRoomId := 2, nextMsgId := 1 },
    roomParticipants := [("ABC123", [1, 2])],
    channels := [("ABC123", [1, 2])],
    sessions := [(1, ⟨some "ABC123", some "al", some 1⟩),
                 (2, ⟨some "ABC123", some "bo", some 1⟩)] }

/-- C5 witness: on a full concrete single room, a join by session 3 keeps
the invariant, a disconnect keeps it, the third distinct join is rejected
with no state change, and session 2 rejoins idempotently. -/
theorem c5_single_room_capacity_witness :
    singleCapacityInv (chatJoin (fun s => s) c5state 3 (some "ABC123")
      (some "cl") 50).1 ∧
    singleCapacityInv (onDisconnect c5state 2 50).1 ∧
    chatJoin (fun s => s) c5state 3 (some "ABC123") (some "cl") 50 =
      (c5state, [{ sid := 3, event := "error:room",
                   text := some "This private room is full (max 2 users)." }]) ∧
    (lookupD (chatJoin (fun s => s) c5state 2 (some "ABC123") (some "bo")
        50).1.roomParticipants ((fun s : String => s) (normalizeCode "ABC123")) [] =
      lookupD c5state.roomParticipants
        ((fun s : String => s) (normalizeCode "ABC123")) [] ∧
    ∃ d ∈ (chatJoin (fun s => s) c5state 2 (some "ABC123") (some "bo") 50).2,
      d.event = "chat:joined" ∧ d.sid = 2) := by
  have h := c5_single_room_capacity
  refine ⟨h.1 (fun s => s) c5state 3 (some "ABC123") (some "cl") 50
      (by decide) (by decide),
    h.2.1 c5state 2 50 (by decide),
    h.2.2.1 (fun s => s) c5state 3 "ABC123" "cl" 50 c5room (by decide) (by decide)
      (by decide) (by decide) (by decide) (by decide) (by decide) (by decide)
      (by decide),
    h.2.2.2 (fun s => s) c5state 2 "ABC123" "bo" 50 c5room (by decide) (by decide)
      (by decide) (by decide) (by decide) (by decide) (by decide)⟩

end VanishChat
